import Mathlib

/-!
Verification development for the nex-viewer PRUDP capture parser.

The embedding follows the JavaScript sources:
  - `src/stream.js`   : the cursor-based binary Stream reader,
  - `src/parser.js`   : frame extraction (`parseUDPPacket`), the packet framing
    loop and connection registry (`handlePacket`), and secure-server promotion,
  - `src/protocols/service_item.js` : the ServiceItem method dispatcher.

JavaScript objects live on a heap and the registry stores references; we model
this with an arena: `store : List Connection` is the heap (a connection is
identified by its index) and `registry : List Nat` is the `this.connections`
array of references.  Bytes are `Nat` values below 256 as produced by Buffer
reads; `Buffer.subarray` clamping is modelled exactly by `jsSubarray`.
-/

namespace NexViewer

/-- A byte value as JS Buffer reads produce them (a number). -/
abbrev Byte := Nat

/-- JS `Buffer.subarray(start, stop)` semantics: negative indices count from the
end of the buffer, then both are clamped to `[0, length]`; an empty buffer is
returned when the clamped start is not below the clamped stop. -/
def jsClamp (buf : List Byte) (i : Int) : Int :=
  if i < 0 then max ((buf.length : Int) + i) 0 else min i (buf.length : Int)

def jsSubarray (buf : List Byte) (start stop : Int) : List Byte :=
  if jsClamp buf start < jsClamp buf stop then
    (buf.drop (jsClamp buf start).toNat).take (jsClamp buf stop - jsClamp buf start).toNat
  else []

/-- Modelled from the spec: `types.js` is not among the sources.  A StationURL
is a parsed key=value endpoint descriptor carrying an address and a port
(spec section 3); the parser reads `secureServerStationURL.address` and
`secureServerStationURL.port` and splices them into a template string, so both
are kept as strings. -/
structure StationURL where
  address : String
  port : String
deriving DecidableEq

/-- Modelled from the spec: `connection.js` is not among the sources.  Fields
are the ones named by spec section 3 and touched by `parser.js`: identity
strings, opaque key material, the per-direction RC4 cipher states (modelled by
the key they were last seeded from), the wire version, the secure-server
promotion flags and the learned station URL.  A fresh connection starts with
everything but the discriminator at a default. -/
structure Connection where
  discriminator : String
  clientAddress : String := ""
  serverAddress : String := ""
  accessKey : Nat := 0
  accessKeySum : Nat := 0
  signatureKey : Nat := 0
  sessionKey : Nat := 0
  prudpVersion : Nat := 0
  title : String := ""
  isSecureServer : Bool := false
  checkForSecureServer : Bool := false
  secureServerStationURL : Option StationURL := none
  rc4ClientState : Nat := 0
  rc4ServerState : Nat := 0
deriving DecidableEq

instance : Inhabited Connection := ⟨{ discriminator := "" }⟩

/-- Modelled from the spec: `new Connection(discriminator)` creates a record
whose identity key is the discriminator and whose other state is default. -/
def Connection.new (discriminator : String) : Connection :=
  { discriminator := discriminator }

/-- Modelled from the spec: `Connection.setRC4Key` re-seeds both per-direction
cipher states from scratch with the given key (spec sections 3 and 9: RC4 state
is reconstructed whenever the session key changes).  A cipher state is modelled
by the key it was seeded from. -/
def Connection.setRC4Key (c : Connection) (key : Nat) : Connection :=
  { c with rc4ClientState := key, rc4ServerState := key }

/-- The Stream class of `src/stream.js`: a buffer, a cursor, and an optional
owning connection (used only by the NEX-typed readers). -/
structure Stream where
  connection : Option Connection := none
  _buffer : List Byte
  _offset : Int := 0
deriving DecidableEq

/-- The hasDataLeft method of `src/stream.js`. -/
def Stream.hasDataLeft (s : Stream) : Bool :=
  s._offset < (s._buffer.length : Int)

/-- The remaining method of `src/stream.js`. -/
def Stream.remaining (s : Stream) : Int :=
  (s._buffer.length : Int) - s._offset

/-- The skip method of `src/stream.js`: moves the cursor with no bounds check. -/
def Stream.skip (s : Stream) (value : Int) : Stream :=
  { s with _offset := s._offset + value }

/-- The read method of `src/stream.js`: `subarray(offset, offset + len)` (which
clamps, so the returned bytes may be fewer than `len`, possibly none), then the
cursor advances by the full `len` unconditionally.  Total: JS `subarray` never
throws. -/
def Stream.read (s : Stream) (len : Int) : List Byte × Stream :=
  (jsSubarray s._buffer s._offset (s._offset + len),
    { s with _offset := s._offset + len })

/-- The readBytes method of `src/stream.js`: an alias of read. -/
def Stream.readBytes (s : Stream) (len : Int) : List Byte × Stream :=
  s.read len

/-- The readRest method of `src/stream.js`. -/
def Stream.readRest (s : Stream) : List Byte × Stream :=
  s.readBytes s.remaining

/-- The readUInt8 method of `src/stream.js`: `readBytes(1).readUInt8()`.  The
Buffer fixed-width read throws a RangeError when the carved subarray is too
short, after the cursor has already advanced. -/
def Stream.readUInt8 (s : Stream) : Except String (Nat × Stream) :=
  let r := s.readBytes 1
  match r.fst with
  | [b0] => Except.ok (b0, r.snd)
  | _ => Except.error "RangeError"

/-- The readUInt16LE method of `src/stream.js`: low byte first. -/
def Stream.readUInt16LE (s : Stream) : Except String (Nat × Stream) :=
  let r := s.readBytes 2
  match r.fst with
  | [b0, b1] => Except.ok (b0 + b1 * 256, r.snd)
  | _ => Except.error "RangeError"

/-- The readUInt16BE method of `src/stream.js`: high byte first. -/
def Stream.readUInt16BE (s : Stream) : Except String (Nat × Stream) :=
  let r := s.readBytes 2
  match r.fst with
  | [b0, b1] => Except.ok (b0 * 256 + b1, r.snd)
  | _ => Except.error "RangeError"

/-- The readUInt32BE method of `src/stream.js`. -/
def Stream.readUInt32BE (s : Stream) : Except String (Nat × Stream) :=
  let r := s.readBytes 4
  match r.fst with
  | [b0, b1, b2, b3] =>
      Except.ok (b0 * 2 ^ 24 + b1 * 2 ^ 16 + b2 * 2 ^ 8 + b3, r.snd)
  | _ => Except.error "RangeError"

theorem jsSubarray_nat (buf : List Byte) (o k : Nat) :
    jsSubarray buf (o : Int) ((o : Int) + (k : Int)) = (buf.drop o).take k := by
  unfold jsSubarray jsClamp
  rw [if_neg (by omega : ¬((o : Int) < 0)),
    if_neg (by omega : ¬((o : Int) + (k : Int) < 0))]
  by_cases hlt :
      min (o : Int) (buf.length : Int) < min ((o : Int) + (k : Int)) (buf.length : Int)
  · rw [if_pos hlt]
    have h1 : (min (o : Int) (buf.length : Int)).toNat = o := by omega
    have h2 : (min ((o : Int) + (k : Int)) (buf.length : Int)
        - min (o : Int) (buf.length : Int)).toNat = min k (buf.length - o) := by omega
    rw [h1, h2, List.take_eq_take]
    simp only [List.length_drop]
    omega
  · rw [if_neg hlt]
    have h : buf.length ≤ o ∨ k = 0 := by omega
    rcases h with h | h
    · rw [List.drop_eq_nil_of_le h, List.take_nil]
    · rw [h, List.take_zero]

/-- PRUDPv0 serverbound virtual-port marker bytes of `src/parser.js`. -/
def MAGIC_SERVERBOUND : List Byte := [0xAF, 0xA1]

/-- PRUDPv0 clientbound virtual-port marker bytes of `src/parser.js`. -/
def MAGIC_CLIENTBOUND : List Byte := [0xA1, 0xAF]

/-- PRUDPv1 magic bytes of `src/parser.js`. -/
def MAGIC_V1 : List Byte := [0xEA, 0xD0]

/-- The XID broadcast false-positive signature bytes of `src/parser.js`. -/
def XID_MAGIC : List Byte := [0x81, 0x01, 0x0]

/-- The int2ip method of `src/parser.js`.  For `int` below 2 to the 32 (as every
`readUInt32BE` result is) the JS shifts `int >>> 24` and `int >> x & 255` are
exactly truncated division and masking with 256. -/
def int2ip (int : Nat) : String :=
  toString (int / 2 ^ 24) ++ "." ++ toString (int / 2 ^ 16 % 256) ++ "." ++
    toString (int / 2 ^ 8 % 256) ++ "." ++ toString (int % 256)

/-- The object returned by the parseUDPPacket method of `src/parser.js`. -/
structure UDPPacket where
  source : String
  destination : String
  sourcePort : Nat
  destinationPort : Nat
  payload : List Byte
deriving DecidableEq

/-- The parseUDPPacket method of `src/parser.js`.  `Except.ok none` is the
explicit early return (rejection), `Except.error` is a thrown Buffer RangeError
on a fixed-width read past the end of the frame. -/
def parseUDPPacket (frame : List Byte) : Except String (Option UDPPacket) :=
  if jsSubarray frame 17 20 = XID_MAGIC then
    Except.ok none
  else do
    let s0 : Stream := { _buffer := frame }
    let s1 := s0.skip 0xE
    let s2 := s1.skip 0x9
    let (protocol, s3) ← s2.readUInt8
    if protocol ≠ 0x11 then
      return none
    else
      let s4 := s3.skip 0x2
      let (sourceInt, s5) ← s4.readUInt32BE
      let (destinationInt, s6) ← s5.readUInt32BE
      let (sourcePort, s7) ← s6.readUInt16BE
      let (destinationPort, s8) ← s7.readUInt16BE
      let (udpPacketLength, s9) ← s8.readUInt16BE
      let s10 := s9.skip 0x2
      let r := s10.readBytes ((udpPacketLength : Int) - 0x8)
      return some
        { source := int2ip sourceInt
          destination := int2ip destinationInt
          sourcePort := sourcePort
          destinationPort := destinationPort
          payload := r.fst }

/-- One decoded PRUDP packet as emitted by the framing loop: the wire version,
the owning connection (an arena reference, as the JS object reference), and the
byte buffer handed to the version-specific Packet Decoder constructor. -/
structure Packet where
  version : Nat
  connectionId : Nat
  payload : List Byte
deriving DecidableEq

/-- An observable event emitted by `NEXParser.handlePacket`. -/
inductive Event where
  | connectionEvent (id : Nat)
  | packetEvent (packet : Packet)
deriving DecidableEq

/-- The mutable state threaded through the framing loop: the connection heap,
the `this.connections` registry of references into it, and the events emitted
so far in this datagram. -/
structure LoopState where
  store : List Connection
  registry : List Nat
  events : List Event
deriving DecidableEq

/-- External collaborators of `src/parser.js`: the private-ip package and the
per-connection packet handler.  Modelled from the spec where no source exists:
`connection.handlePacket` (in the absent `connection.js`) mutates only the
connection it is called on, so it is an arbitrary parameter here and every
theorem holds for every such behavior. -/
structure Env where
  isPrivateIP : String → Bool
  connHandlePacket : Connection → Packet → Connection

/-- Direction inference of `NEXParser.handlePacket` (lines 81 to 94): a private
source address means a client to server packet keyed by the destination;
otherwise a server to client packet keyed by the source. -/
structure DirectionInfo where
  discriminator : String
  clientAddress : String
  serverAddress : String
deriving DecidableEq

def directionInfo (isPrivateIP : String → Bool) (udpPacket : UDPPacket) :
    DirectionInfo :=
  if isPrivateIP udpPacket.source then
    { discriminator := udpPacket.destination ++ ":" ++ toString udpPacket.destinationPort
      clientAddress := udpPacket.source ++ ":" ++ toString udpPacket.sourcePort
      serverAddress := udpPacket.destination ++ ":" ++ toString udpPacket.destinationPort }
  else
    { discriminator := udpPacket.source ++ ":" ++ toString udpPacket.sourcePort
      clientAddress := udpPacket.destination ++ ":" ++ toString udpPacket.destinationPort
      serverAddress := udpPacket.source ++ ":" ++ toString udpPacket.sourcePort }

/-- The `this.connections.findLast` lookup of `NEXParser.handlePacket` line 98:
the most recent registry entry whose connection has the given discriminator. -/
def findLastConnection (store : List Connection) (registry : List Nat)
    (discriminator : String) : Option Nat :=
  registry.reverse.find?
    (fun i => (store.getD i default).discriminator == discriminator)

/-- Secure-server promotion, `NEXParser.handlePacket` lines 152 to 181.  Fires
only when the connection has a learned `secureServerStationURL` and the
`checkForSecureServer` flag; on a different ip:port a fresh connection copying
the key material is pushed, on the same ip:port the connection is promoted in
place; the flag is cleared in both branches. -/
def securePromotion (ci : Nat) (store : List Connection) (registry : List Nat) :
    List Connection × List Nat :=
  let connection := store.getD ci default
  match connection.secureServerStationURL with
  | none => (store, registry)
  | some stationURL =>
    if connection.checkForSecureServer then
      let secureIP := stationURL.address
      let securePort := stationURL.port
      let secureDiscriminator := secureIP ++ ":" ++ securePort
      if connection.discriminator ≠ secureDiscriminator then
        let secureConnection := Connection.new secureDiscriminator
        let secureConnection := secureConnection.setRC4Key connection.sessionKey
        let secureConnection :=
          { secureConnection with
            accessKey := connection.accessKey
            accessKeySum := connection.accessKeySum
            signatureKey := connection.signatureKey
            sessionKey := connection.sessionKey
            prudpVersion := connection.prudpVersion
            title := connection.title
            isSecureServer := true
            clientAddress := connection.clientAddress
            serverAddress := secureDiscriminator }
        let store1 := store ++ [secureConnection]
        let registry1 := registry ++ [store.length]
        (store1.set ci { connection with checkForSecureServer := false }, registry1)
      else
        let connection1 :=
          ({ connection with isSecureServer := true }).setRC4Key connection.sessionKey
        (store.set ci { connection1 with checkForSecureServer := false }, registry)
    else (store, registry)

/-- The body of the framing loop after a packet validated, `handlePacket` lines
144 to 183: push and notify when `newConnection` is set (the flag is never
cleared by the source), let the connection handle the packet, evaluate
secure-server promotion, then emit the packet event. -/
def afterValidation (env : Env) (ci : Nat) (newConnection : Bool)
    (st : LoopState) (packet : Packet) : LoopState :=
  let st1 :=
    if newConnection then
      { st with registry := st.registry ++ [ci]
                events := st.events ++ [Event.connectionEvent ci] }
    else st
  let conn := st1.store.getD ci default
  let conn1 := env.connHandlePacket conn packet
  let store1 := st1.store.set ci conn1
  let pr := securePromotion ci store1 st1.registry
  { store := pr.fst, registry := pr.snd
    events := st1.events ++ [Event.packetEvent packet] }

/-- The framing decision of one iteration of the `while (stream.hasDataLeft())`
loop of `NEXParser.handlePacket`, lines 113 to 142: read a 2-byte magic
candidate; on the v1 magic peek the length fields and check the virtual-port
marker, rewinding and carving the declared span on success and discarding the
rest of the datagram otherwise; on a bare virtual-port marker the packet is v0;
anything else discards the rest of the datagram. -/
inductive FrameResult where
  | v1Packet (payload : List Byte) (next : Stream)
  | v0Packet (next : Stream)
  | discard
  | rangeError (e : String)
deriving DecidableEq

def frameStep (stream : Stream) : FrameResult :=
  let m := stream.readBytes 0x2
  let magic := m.fst
  if magic = MAGIC_V1 then
    let s2 := m.snd.skip 0x1
    match s2.readUInt8 with
    | Except.error e => FrameResult.rangeError e
    | Except.ok (packetSpecificDataLength, s3) =>
      match s3.readUInt16LE with
      | Except.error e => FrameResult.rangeError e
      | Except.ok (payloadSize, s4) =>
        let sd := s4.readBytes 0x2
        if sd.fst = MAGIC_SERVERBOUND ∨ sd.fst = MAGIC_CLIENTBOUND then
          let s6 := sd.snd.skip (-0x8)
          let pr := s6.readBytes
            (2 + 12 + 16 + (packetSpecificDataLength : Int) + (payloadSize : Int))
          FrameResult.v1Packet pr.fst pr.snd
        else FrameResult.discard
  else if magic = MAGIC_SERVERBOUND ∨ magic = MAGIC_CLIENTBOUND then
    FrameResult.v0Packet m.snd
  else FrameResult.discard

theorem Stream.readUInt8_ok {s s1 : Stream} {v : Nat}
    (h : s.readUInt8 = Except.ok (v, s1)) :
    s1 = { s with _offset := s._offset + 1 } := by
  unfold Stream.readUInt8 Stream.readBytes Stream.read at h
  dsimp only at h
  split at h
  · simp only [Except.ok.injEq, Prod.mk.injEq] at h
    exact h.2.symm
  · simp at h

theorem Stream.readUInt16LE_ok {s s1 : Stream} {v : Nat}
    (h : s.readUInt16LE = Except.ok (v, s1)) :
    s1 = { s with _offset := s._offset + 2 } := by
  unfold Stream.readUInt16LE Stream.readBytes Stream.read at h
  dsimp only at h
  split at h
  · simp only [Except.ok.injEq, Prod.mk.injEq] at h
    exact h.2.symm
  · simp at h

theorem frameStep_v1_next {s next : Stream} {payload : List Byte}
    (h : frameStep s = FrameResult.v1Packet payload next) :
    next._buffer = s._buffer ∧ s._offset + 30 ≤ next._offset := by
  unfold frameStep at h
  dsimp only at h
  split at h
  · split at h
    · simp at h
    · rename_i heq3
      split at h
      · simp at h
      · rename_i heq4
        split at h
        · simp only [FrameResult.v1Packet.injEq] at h
          have h3 := Stream.readUInt8_ok heq3
          have h4 := Stream.readUInt16LE_ok heq4
          have hn := h.2
          subst hn
          subst h3
          subst h4
          simp [Stream.readBytes, Stream.read, Stream.skip]
          omega
        · simp at h
  · split at h <;> simp at h

theorem frameStep_v0_next {s next : Stream}
    (h : frameStep s = FrameResult.v0Packet next) :
    next = { s with _offset := s._offset + 2 } := by
  unfold frameStep at h
  dsimp only at h
  split at h
  · split at h
    · simp at h
    · split at h
      · simp at h
      · split at h <;> simp at h
  · split at h
    · simp only [FrameResult.v0Packet.injEq] at h
      subst h
      rfl
    · simp at h

/-- The `while (stream.hasDataLeft())` framing loop of `NEXParser.handlePacket`
(lines 112 to 184).  A v1 packet is constructed over its carved span; a v0
packet is constructed over `udpPacket.payload`, the whole datagram payload; a
failed validation silently drops the rest of the datagram (`readRest` then
`return`); a RangeError thrown by a peek read propagates. -/
def processLoop (env : Env) (udpPayload : List Byte) (ci : Nat)
    (newConnection : Bool) (st : LoopState) (stream : Stream) :
    Except String LoopState :=
  if hleft : stream.hasDataLeft = true then
    match hstep : frameStep stream with
    | FrameResult.rangeError e => Except.error e
    | FrameResult.discard => Except.ok st
    | FrameResult.v1Packet payload next =>
        processLoop env udpPayload ci newConnection
          (afterValidation env ci newConnection st
            { version := 1, connectionId := ci, payload := payload }) next
    | FrameResult.v0Packet next =>
        processLoop env udpPayload ci newConnection
          (afterValidation env ci newConnection st
            { version := 0, connectionId := ci, payload := udpPayload }) next
  else Except.ok st
termination_by ((stream._buffer.length : Int) - stream._offset).toNat
decreasing_by
  · have h1 := frameStep_v1_next hstep
    unfold Stream.hasDataLeft at hleft
    simp only [decide_eq_true_eq] at hleft
    rw [h1.1]
    omega
  · have h1 := frameStep_v0_next hstep
    unfold Stream.hasDataLeft at hleft
    simp only [decide_eq_true_eq] at hleft
    subst h1
    simp only []
    omega

/-- The body of `NEXParser.handlePacket` after frame extraction (lines 81 to
184): direction inference, registry lookup by `findLast`, creation of a fresh
connection for an unseen discriminator (allocated on the heap but pushed to the
registry only inside the loop, after validation), then the framing loop. -/
def processDatagram (env : Env) (store : List Connection) (registry : List Nat)
    (udpPacket : UDPPacket) : Except String LoopState :=
  let dinfo := directionInfo env.isPrivateIP udpPacket
  let stream : Stream := { _buffer := udpPacket.payload }
  match findLastConnection store registry dinfo.discriminator with
  | some ci =>
      processLoop env udpPacket.payload ci false
        { store := store, registry := registry, events := [] } stream
  | none =>
      let connection :=
        { Connection.new dinfo.discriminator with
          clientAddress := dinfo.clientAddress
          serverAddress := dinfo.serverAddress }
      processLoop env udpPacket.payload store.length true
        { store := store ++ [connection], registry := registry, events := [] } stream

/-- The handlePacket method of `src/parser.js`: extract the UDP packet from the
raw frame, return silently when the frame is rejected, otherwise run the
framing loop on the datagram. -/
def handlePacket (env : Env) (store : List Connection) (registry : List Nat)
    (frame : List Byte) : Except String LoopState :=
  match parseUDPPacket frame with
  | Except.error e => Except.error e
  | Except.ok none => Except.ok { store := store, registry := registry, events := [] }
  | Except.ok (some udpPacket) => processDatagram env store registry udpPacket

/-- Modelled from the spec: `rmc.js` is not among the sources.  The decrypted
remote-call message (spec section 3): the method id, the request or response
flag read by `rmcMessage.isRequest()`, and the opaque body bytes. -/
structure RMCMessage where
  methodId : Nat
  isRequest : Bool
  body : List Byte
deriving DecidableEq

/-- The value a ServiceItem handler returns: one of the external request or
response catalog constructors (absent collaborators, named by the class the
source instantiates) applied to the body stream. -/
inductive ParsedBody where
  | ctor (className : String) (stream : Stream)
deriving DecidableEq

/-- The `packet.rmcData` object attached by `ServiceItem.handlePacket`. -/
structure RMCData where
  body : ParsedBody
deriving DecidableEq

/-- The packet as seen by the ServiceItem dispatcher: its decrypted RMC
message, its owning connection, and the decoded data slot the dispatcher
fills. -/
structure SIPacket where
  rmcMessage : RMCMessage
  connection : Option Connection := none
  rmcData : Option RMCData := none
deriving DecidableEq

namespace ServiceItem

/-- The Methods table of `service_item.js`. -/
def Methods : List (String × Nat) :=
  [("GetEnvironment", 0x01),
   ("HttpGetRequest", 0x02),
   ("HttpGetResponse", 0x03),
   ("PurchaseServiceItemRequest", 0x04),
   ("PurchaseServiceItemResponse", 0x05),
   ("ListServiceItemRequest", 0x06),
   ("ListServiceItemResponse", 0x07),
   ("GetBalanceRequest", 0x08),
   ("GetBalanceResponse", 0x09),
   ("GetPrepurchaseInfoRequest", 0x0a),
   ("GetPrepurchaseInfoResponse", 0x0b),
   ("GetServiceItemRightRequest", 0x0c),
   ("GetServiceItemRightResponse", 0x0d),
   ("GetPurchaseHistoryRequest", 0x0e),
   ("GetPurchaseHistoryResponse", 0x0f),
   ("PostRightBinaryByAccount", 0x10),
   ("UseServiceItemByAccountRequest", 0x11),
   ("UseServiceItemByAccountResponse", 0x12),
   ("AcquireServiceItemByAccount", 0x13),
   ("GetSupportId", 0x14),
   ("GetLawMessageRequest", 0x15),
   ("GetLawMessageResponse", 0x16)]

/-- The MethodNames reverse table of `service_item.js`: value to key. -/
def MethodNames (methodId : Nat) : Option String :=
  (Methods.find? (fun p => p.snd == methodId)).map (fun p => p.fst)

/-- Each static handler of `service_item.js` forwards the stream to the
request-catalog constructor on a request and to the response-catalog
constructor otherwise. -/
def GetEnvironment (rmcMessage : RMCMessage) (stream : Stream) : ParsedBody :=
  if rmcMessage.isRequest then ParsedBody.ctor "GetEnvironmentRequest" stream
  else ParsedBody.ctor "GetEnvironmentResponse" stream

def HttpGetRequest (rmcMessage : RMCMessage) (stream : Stream) : ParsedBody :=
  if rmcMessage.isRequest then ParsedBody.ctor "HttpGetRequestRequest" stream
  else ParsedBody.ctor "HttpGetRequestResponse" stream

def HttpGetResponse (rmcMessage : RMCMessage) (stream : Stream) : ParsedBody :=
  if rmcMessage.isRequest then ParsedBody.ctor "HttpGetResponseRequest" stream
  else ParsedBody.ctor "HttpGetResponseResponse" stream

def PurchaseServiceItemRequest (rmcMessage : RMCMessage) (stream : Stream) : ParsedBody :=
  if rmcMessage.isRequest then ParsedBody.ctor "PurchaseServiceItemRequestRequest" stream
  else ParsedBody.ctor "PurchaseServiceItemRequestResponse" stream

def PurchaseServiceItemResponse (rmcMessage : RMCMessage) (stream : Stream) : ParsedBody :=
  if rmcMessage.isRequest then ParsedBody.ctor "PurchaseServiceItemResponseRequest" stream
  else ParsedBody.ctor "PurchaseServiceItemResponseResponse" stream

def ListServiceItemRequest (rmcMessage : RMCMessage) (stream : Stream) : ParsedBody :=
  if rmcMessage.isRequest then ParsedBody.ctor "ListServiceItemRequestRequest" stream
  else ParsedBody.ctor "ListServiceItemRequestResponse" stream

def ListServiceItemResponse (rmcMessage : RMCMessage) (stream : Stream) : ParsedBody :=
  if rmcMessage.isRequest then ParsedBody.ctor "ListServiceItemResponseRequest" stream
  else ParsedBody.ctor "ListServiceItemResponseResponse" stream

def GetBalanceRequest (rmcMessage : RMCMessage) (stream : Stream) : ParsedBody :=
  if rmcMessage.isRequest then ParsedBody.ctor "GetBalanceRequestRequest" stream
  else ParsedBody.ctor "GetBalanceRequestResponse" stream

def GetBalanceResponse (rmcMessage : RMCMessage) (stream : Stream) : ParsedBody :=
  if rmcMessage.isRequest then ParsedBody.ctor "GetBalanceResponseRequest" stream
  else ParsedBody.ctor "GetBalanceResponseResponse" stream

def GetPrepurchaseInfoRequest (rmcMessage : RMCMessage) (stream : Stream) : ParsedBody :=
  if rmcMessage.isRequest then ParsedBody.ctor "GetPrepurchaseInfoRequestRequest" stream
  else ParsedBody.ctor "GetPrepurchaseInfoRequestResponse" stream

def GetPrepurchaseInfoResponse (rmcMessage : RMCMessage) (stream : Stream) : ParsedBody :=
  if rmcMessage.isRequest then ParsedBody.ctor "GetPrepurchaseInfoResponseRequest" stream
  else ParsedBody.ctor "GetPrepurchaseInfoResponseResponse" stream

def GetServiceItemRightRequest (rmcMessage : RMCMessage) (stream : Stream) : ParsedBody :=
  if rmcMessage.isRequest then ParsedBody.ctor "GetServiceItemRightRequestRequest" stream
  else ParsedBody.ctor "GetServiceItemRightRequestResponse" stream

def GetServiceItemRightResponse (rmcMessage : RMCMessage) (stream : Stream) : ParsedBody :=
  if rmcMessage.isRequest then ParsedBody.ctor "GetServiceItemRightResponseRequest" stream
  else ParsedBody.ctor "GetServiceItemRightResponseResponse" stream

def GetPurchaseHistoryRequest (rmcMessage : RMCMessage) (stream : Stream) : ParsedBody :=
  if rmcMessage.isRequest then ParsedBody.ctor "GetPurchaseHistoryRequestRequest" stream
  else ParsedBody.ctor "GetPurchaseHistoryRequestResponse" stream

def GetPurchaseHistoryResponse (rmcMessage : RMCMessage) (stream : Stream) : ParsedBody :=
  if rmcMessage.isRequest then ParsedBody.ctor "GetPurchaseHistoryResponseRequest" stream
  else ParsedBody.ctor "GetPurchaseHistoryResponseResponse" stream

def PostRightBinaryByAccount (rmcMessage : RMCMessage) (stream : Stream) : ParsedBody :=
  if rmcMessage.isRequest then ParsedBody.ctor "PostRightBinaryByAccountRequest" stream
  else ParsedBody.ctor "PostRightBinaryByAccountResponse" stream

def UseServiceItemByAccountRequest (rmcMessage : RMCMessage) (stream : Stream) : ParsedBody :=
  if rmcMessage.isRequest then ParsedBody.ctor "UseServiceItemByAccountRequestRequest" stream
  else ParsedBody.ctor "UseServiceItemByAccountRequestResponse" stream

def UseServiceItemByAccountResponse (rmcMessage : RMCMessage) (stream : Stream) : ParsedBody :=
  if rmcMessage.isRequest then ParsedBody.ctor "UseServiceItemByAccountResponseRequest" stream
  else ParsedBody.ctor "UseServiceItemByAccountResponseResponse" stream

def AcquireServiceItemByAccount (rmcMessage : RMCMessage) (stream : Stream) : ParsedBody :=
  if rmcMessage.isRequest then ParsedBody.ctor "AcquireServiceItemByAccountRequest" stream
  else ParsedBody.ctor "AcquireServiceItemByAccountResponse" stream

def GetSupportId (rmcMessage : RMCMessage) (stream : Stream) : ParsedBody :=
  if rmcMessage.isRequest then ParsedBody.ctor "GetSupportIdRequest" stream
  else ParsedBody.ctor "GetSupportIdResponse" stream

def GetLawMessageRequest (rmcMessage : RMCMessage) (stream : Stream) : ParsedBody :=
  if rmcMessage.isRequest then ParsedBody.ctor "GetLawMessageRequestRequest" stream
  else ParsedBody.ctor "GetLawMessageRequestResponse" stream

def GetLawMessageResponse (rmcMessage : RMCMessage) (stream : Stream) : ParsedBody :=
  if rmcMessage.isRequest then ParsedBody.ctor "GetLawMessageResponseRequest" stream
  else ParsedBody.ctor "GetLawMessageResponseResponse" stream

/-- The Handlers table of `service_item.js`, keyed by method id. -/
def Handlers (methodId : Nat) : Option (RMCMessage → Stream → ParsedBody) :=
  match methodId with
  | 0x01 => some GetEnvironment
  | 0x02 => some HttpGetRequest
  | 0x03 => some HttpGetResponse
  | 0x04 => some PurchaseServiceItemRequest
  | 0x05 => some PurchaseServiceItemResponse
  | 0x06 => some ListServiceItemRequest
  | 0x07 => some ListServiceItemResponse
  | 0x08 => some GetBalanceRequest
  | 0x09 => some GetBalanceResponse
  | 0x0a => some GetPrepurchaseInfoRequest
  | 0x0b => some GetPrepurchaseInfoResponse
  | 0x0c => some GetServiceItemRightRequest
  | 0x0d => some GetServiceItemRightResponse
  | 0x0e => some GetPurchaseHistoryRequest
  | 0x0f => some GetPurchaseHistoryResponse
  | 0x10 => some PostRightBinaryByAccount
  | 0x11 => some UseServiceItemByAccountRequest
  | 0x12 => some UseServiceItemByAccountResponse
  | 0x13 => some AcquireServiceItemByAccount
  | 0x14 => some GetSupportId
  | 0x15 => some GetLawMessageRequest
  | 0x16 => some GetLawMessageResponse
  | _ => none

/-- Hexadecimal rendering used by the unknown-method log line. -/
def hexString (n : Nat) : String :=
  String.mk (Nat.toDigits 16 n)

/-- The unknown-method console.log line of `service_item.js`. -/
def unknownMethodMessage (methodId : Nat) : String :=
  "Unknown Service Item method ID " ++ toString methodId ++ " (0x"
    ++ hexString methodId ++ ") ("
    ++ (match MethodNames methodId with
        | some name => name
        | none => "undefined") ++ ")"

/-- The static handlePacket method of `service_item.js`: look the method id up
in the Handlers table; when absent, log the unknown-method diagnostic and
return with the packet untouched; when present, build a stream over the message
body (owned by the packet connection) and attach the handler result as
`packet.rmcData`.  The returned string list is the console output; the function
is total, so an unknown method never fails the run. -/
def handlePacket (packet : SIPacket) : SIPacket × List String :=
  let methodId := packet.rmcMessage.methodId
  match Handlers methodId with
  | none => (packet, [unknownMethodMessage methodId])
  | some handler =>
      let rmcMessage := packet.rmcMessage
      let stream : Stream :=
        { connection := packet.connection, _buffer := rmcMessage.body }
      ({ packet with rmcData := some { body := handler rmcMessage stream } }, [])

end ServiceItem

theorem jsSubarray_eq (buf : List Byte) (a b : Int) (ha : 0 ≤ a) (hab : a ≤ b) :
    jsSubarray buf a b = (buf.drop a.toNat).take (b - a).toNat := by
  unfold jsSubarray jsClamp
  rw [if_neg (by omega : ¬(a < 0)), if_neg (by omega : ¬(b < 0))]
  by_cases hlt : min a (buf.length : Int) < min b (buf.length : Int)
  · rw [if_pos hlt]
    have ha2 : a < (buf.length : Int) := by omega
    have h1 : (min a (buf.length : Int)).toNat = a.toNat := by omega
    have h2 : (min b (buf.length : Int) - min a (buf.length : Int)).toNat
        = min (b - a).toNat (buf.length - a.toNat) := by omega
    rw [h1, h2, List.take_eq_take]
    simp only [List.length_drop]
    omega
  · rw [if_neg hlt]
    have h : buf.length ≤ a.toNat ∨ (b - a).toNat = 0 := by omega
    rcases h with h | h
    · rw [List.drop_eq_nil_of_le h, List.take_nil]
    · rw [h, List.take_zero]

theorem Stream.readBytes_eq (s : Stream) (k : Int) (h0 : 0 ≤ s._offset)
    (hk : 0 ≤ k) :
    s.readBytes k = ((s._buffer.drop s._offset.toNat).take k.toNat,
      { s with _offset := s._offset + k }) := by
  unfold Stream.readBytes Stream.read
  rw [jsSubarray_eq _ _ _ h0 (by omega)]
  have h1 : (s._offset + k - s._offset).toNat = k.toNat := by omega
  rw [h1]

theorem Stream.readUInt8_eq {s : Stream} {b : Byte} {rest : List Byte}
    (h0 : 0 ≤ s._offset) (hb : s._buffer.drop s._offset.toNat = b :: rest) :
    s.readUInt8 = Except.ok (b, { s with _offset := s._offset + 1 }) := by
  unfold Stream.readUInt8
  rw [Stream.readBytes_eq s 1 h0 (by omega)]
  dsimp only
  rw [hb]
  rfl

theorem Stream.readUInt16LE_eq {s : Stream} {b0 b1 : Byte} {rest : List Byte}
    (h0 : 0 ≤ s._offset) (hb : s._buffer.drop s._offset.toNat = b0 :: b1 :: rest) :
    s.readUInt16LE = Except.ok (b0 + b1 * 256, { s with _offset := s._offset + 2 }) := by
  unfold Stream.readUInt16LE
  rw [Stream.readBytes_eq s 2 h0 (by omega)]
  dsimp only
  rw [hb]
  rfl

theorem processLoop_done (env : Env) (p : List Byte) (ci : Nat) (nc : Bool)
    (st : LoopState) (s : Stream) (h : s.hasDataLeft = false) :
    processLoop env p ci nc st s = Except.ok st := by
  rw [processLoop.eq_def, dif_neg (by simp [h])]

theorem processLoop_discard (env : Env) (p : List Byte) (ci : Nat) (nc : Bool)
    (st : LoopState) (s : Stream) (h : s.hasDataLeft = true)
    (hs : frameStep s = FrameResult.discard) :
    processLoop env p ci nc st s = Except.ok st := by
  rw [processLoop.eq_def, dif_pos h]
  split <;> simp_all

theorem processLoop_v1 (env : Env) (p : List Byte) (ci : Nat) (nc : Bool)
    (st : LoopState) (s : Stream) (payload : List Byte) (next : Stream)
    (h : s.hasDataLeft = true)
    (hs : frameStep s = FrameResult.v1Packet payload next) :
    processLoop env p ci nc st s =
      processLoop env p ci nc
        (afterValidation env ci nc st
          { version := 1, connectionId := ci, payload := payload }) next := by
  rw [processLoop.eq_def, dif_pos h]
  split <;> simp_all

theorem processLoop_v0 (env : Env) (p : List Byte) (ci : Nat) (nc : Bool)
    (st : LoopState) (s : Stream) (next : Stream)
    (h : s.hasDataLeft = true)
    (hs : frameStep s = FrameResult.v0Packet next) :
    processLoop env p ci nc st s =
      processLoop env p ci nc
        (afterValidation env ci nc st
          { version := 0, connectionId := ci, payload := p }) next := by
  rw [processLoop.eq_def, dif_pos h]
  split <;> simp_all

theorem securePromotion_registry (ci : Nat) (store : List Connection)
    (registry : List Nat) :
    ∃ t, (securePromotion ci store registry).snd = registry ++ t := by
  unfold securePromotion
  dsimp only
  split
  · exact ⟨[], by simp⟩
  · split
    · split
      · exact ⟨[store.length], rfl⟩
      · exact ⟨[], by simp⟩
    · exact ⟨[], by simp⟩

theorem afterValidation_registry (env : Env) (ci : Nat) (nc : Bool)
    (st : LoopState) (pkt : Packet) :
    ∃ t, (afterValidation env ci nc st pkt).registry = st.registry ++ t := by
  unfold afterValidation
  dsimp only
  by_cases hnc : nc
  · simp only [hnc, if_true]
    obtain ⟨t, ht⟩ := securePromotion_registry ci
      ((st.registry ++ [ci], st.events ++ [Event.connectionEvent ci],
        st.store).2.2.set ci
        (env.connHandlePacket ((st.store).getD ci default) pkt))
      (st.registry ++ [ci])
    exact ⟨[ci] ++ t, by simpa using ht⟩
  · simp only [hnc, if_false]
    exact securePromotion_registry ci _ _

theorem afterValidation_events (env : Env) (ci : Nat) (nc : Bool)
    (st : LoopState) (pkt : Packet) :
    (afterValidation env ci nc st pkt).events =
      st.events ++ (if nc then [Event.connectionEvent ci] else [])
        ++ [Event.packetEvent pkt] := by
  unfold afterValidation
  by_cases hnc : nc <;> simp [hnc]

theorem processLoop_rangeError (env : Env) (p : List Byte) (ci : Nat) (nc : Bool)
    (st : LoopState) (s : Stream) (e : String) (h : s.hasDataLeft = true)
    (hs : frameStep s = FrameResult.rangeError e) :
    processLoop env p ci nc st s = Except.error e := by
  rw [processLoop.eq_def, dif_pos h]
  split <;> simp_all

theorem processLoop_registry_extends (env : Env) (p : List Byte) (ci : Nat)
    (nc : Bool) (st : LoopState) (s : Stream) :
    ∀ res, processLoop env p ci nc st s = Except.ok res →
      ∃ t, res.registry = st.registry ++ t := by
  induction st, s using processLoop.induct env p ci nc with
  | case1 st s hleft e hstep =>
      intro res h
      rw [processLoop_rangeError env p ci nc st s e hleft hstep] at h
      cases h
  | case2 st s hleft hstep =>
      intro res h
      rw [processLoop_discard env p ci nc st s hleft hstep] at h
      cases h
      exact ⟨[], by simp⟩
  | case3 st s hleft payload next hstep ih =>
      intro res h
      rw [processLoop_v1 env p ci nc st s payload next hleft hstep] at h
      obtain ⟨t1, ht1⟩ := ih res h
      obtain ⟨t0, ht0⟩ := afterValidation_registry env ci nc st
        { version := 1, connectionId := ci, payload := payload }
      exact ⟨t0 ++ t1, by rw [ht1, ht0, List.append_assoc]⟩
  | case4 st s hleft next hstep ih =>
      intro res h
      rw [processLoop_v0 env p ci nc st s next hleft hstep] at h
      obtain ⟨t1, ht1⟩ := ih res h
      obtain ⟨t0, ht0⟩ := afterValidation_registry env ci nc st
        { version := 0, connectionId := ci, payload := p }
      exact ⟨t0 ++ t1, by rw [ht1, ht0, List.append_assoc]⟩
  | case5 st s hleft =>
      intro res h
      rw [processLoop_done env p ci nc st s (by simpa using hleft)] at h
      cases h
      exact ⟨[], by simp⟩

theorem Stream.skip_eq (st : Stream) (v : Int) :
    st.skip v = { st with _offset := st._offset + v } := rfl

theorem frameStep_shape (s : Stream) (b2 psdl z0 z1 m0 m1 : Byte) (rest : List Byte)
    (h0 : 0 ≤ s._offset)
    (hb : s._buffer.drop s._offset.toNat
      = 0xEA :: 0xD0 :: b2 :: psdl :: z0 :: z1 :: m0 :: m1 :: rest) :
    frameStep s =
      if [m0, m1] = MAGIC_SERVERBOUND ∨ [m0, m1] = MAGIC_CLIENTBOUND then
        FrameResult.v1Packet
          ((s._buffer.drop s._offset.toNat).take (30 + psdl + (z0 + z1 * 256)))
          { s with _offset := s._offset
              + ((30 + psdl + (z0 + z1 * 256) : Nat) : Int) }
      else FrameResult.discard := by
  have h3 : s._buffer.drop (s._offset + 2 + 1).toNat
      = psdl :: z0 :: z1 :: m0 :: m1 :: rest := by
    rw [show (s._offset + 2 + 1).toNat = s._offset.toNat + 3 by omega,
      ← List.drop_drop, hb]
    rfl
  have h4 : s._buffer.drop (s._offset + 2 + 1 + 1).toNat
      = z0 :: z1 :: m0 :: m1 :: rest := by
    rw [show (s._offset + 2 + 1 + 1).toNat = s._offset.toNat + 4 by omega,
      ← List.drop_drop, hb]
    rfl
  have h6 : s._buffer.drop (s._offset + 2 + 1 + 1 + 2).toNat
      = m0 :: m1 :: rest := by
    rw [show (s._offset + 2 + 1 + 1 + 2).toNat = s._offset.toNat + 6 by omega,
      ← List.drop_drop, hb]
    rfl
  unfold frameStep
  dsimp only
  rw [Stream.readBytes_eq s 2 h0 (by omega)]
  dsimp only
  have hmagic : (s._buffer.drop s._offset.toNat).take ((2 : Int)).toNat
      = MAGIC_V1 := by
    rw [hb]
    rfl
  rw [hmagic, if_pos rfl]
  simp only [Stream.skip_eq]
  rw [Stream.readUInt8_eq (s := { s with _offset := s._offset + 2 + 1 })
    (by dsimp only; omega) (by dsimp only; exact h3)]
  dsimp only
  rw [Stream.readUInt16LE_eq
    (s := { s with _offset := s._offset + 2 + 1 + 1 })
    (by dsimp only; omega) (by dsimp only; exact h4)]
  dsimp only
  rw [Stream.readBytes_eq { s with _offset := s._offset + 2 + 1 + 1 + 2 } 2
    (by dsimp only; omega) (by omega)]
  dsimp only
  have hmark : (s._buffer.drop (s._offset + 2 + 1 + 1 + 2).toNat).take
      ((2 : Int)).toNat = [m0, m1] := by
    rw [h6]
    rfl
  rw [hmark]
  by_cases hm : [m0, m1] = MAGIC_SERVERBOUND ∨ [m0, m1] = MAGIC_CLIENTBOUND
  · rw [if_pos hm, if_pos hm]
    rw [Stream.readBytes_eq
      { s with _offset := s._offset + 2 + 1 + 1 + 2 + 2 + -8 }
      (2 + 12 + 16 + (psdl : Int) + ((z0 + z1 * 256 : Nat) : Int))
      (by dsimp only; omega) (by omega)]
    dsimp only
    rw [show (s._offset + 2 + 1 + 1 + 2 + 2 + -8).toNat = s._offset.toNat by omega]
    rw [show (2 + 12 + 16 + (psdl : Int) + ((z0 + z1 * 256 : Nat) : Int)).toNat
      = 30 + psdl + (z0 + z1 * 256) by omega]
    rw [show s._offset + 2 + 1 + 1 + 2 + 2 + -8
        + (2 + 12 + 16 + (psdl : Int) + ((z0 + z1 * 256 : Nat) : Int))
      = s._offset + ((30 + psdl + (z0 + z1 * 256) : Nat) : Int) by push_cast; omega]
  · rw [if_neg hm, if_neg hm]

theorem processLoop_v0_whole_payload (env : Env) (p : List Byte) (ci : Nat)
    (nc : Bool) (st : LoopState) (s : Stream) :
    ∀ res, processLoop env p ci nc st s = Except.ok res →
      ∀ pk : Packet, Event.packetEvent pk ∈ res.events → pk.version = 0 →
        Event.packetEvent pk ∈ st.events ∨ pk.payload = p := by
  induction st, s using processLoop.induct env p ci nc with
  | case1 st s hleft e hstep =>
      intro res h
      rw [processLoop_rangeError env p ci nc st s e hleft hstep] at h
      cases h
  | case2 st s hleft hstep =>
      intro res h
      rw [processLoop_discard env p ci nc st s hleft hstep] at h
      cases h
      intro pk hmem _
      exact Or.inl hmem
  | case3 st s hleft payload next hstep ih =>
      intro res h pk hmem hv
      rw [processLoop_v1 env p ci nc st s payload next hleft hstep] at h
      rcases ih res h pk hmem hv with hin | hpay
      · rw [afterValidation_events] at hin
        simp only [List.mem_append] at hin
        rcases hin with (hin | hin) | hin
        · exact Or.inl hin
        · rcases Bool.eq_false_or_eq_true nc with hnc | hnc <;> simp [hnc] at hin
        · simp only [List.mem_singleton, Event.packetEvent.injEq] at hin
          rw [hin] at hv
          cases hv
      · exact Or.inr hpay
  | case4 st s hleft next hstep ih =>
      intro res h pk hmem hv
      rw [processLoop_v0 env p ci nc st s next hleft hstep] at h
      rcases ih res h pk hmem hv with hin | hpay
      · rw [afterValidation_events] at hin
        simp only [List.mem_append] at hin
        rcases hin with (hin | hin) | hin
        · exact Or.inl hin
        · rcases Bool.eq_false_or_eq_true nc with hnc | hnc <;> simp [hnc] at hin
        · simp only [List.mem_singleton, Event.packetEvent.injEq] at hin
          exact Or.inr (by rw [hin])
      · exact Or.inr hpay
  | case5 st s hleft =>
      intro res h
      rw [processLoop_done env p ci nc st s (by simpa using hleft)] at h
      cases h
      intro pk hmem _
      exact Or.inl hmem

/-- A concrete environment for closed evaluations: the private-address
predicate recognizes a single LAN address and the connection handler leaves
the connection unchanged. -/
def envId : Env :=
  { isPrivateIP := fun address => address == "192.168.0.13"
    connHandlePacket := fun c _ => c }

/-- C10: for every Stream and requested length, `readBytes` (alias of `read`)
never raises: when fewer than `len` bytes remain it returns only the bytes up
to the end of the buffer (possibly none), yet the cursor still advances by the
full `len`, leaving it past the end of the buffer; `skip` likewise moves the
cursor unconditionally — no read or skip operation validates bounds.  The
embedded `read` is total exactly because JS `Buffer.subarray` clamps. -/
theorem c10_stream_reads_unchecked (s : Stream) (len : Int)
    (h0 : 0 ≤ s._offset) (hlen : 0 ≤ len)
    (hover : (s._buffer.length : Int) < s._offset + len) :
    (s.readBytes len).fst = s._buffer.drop s._offset.toNat ∧
    ((s.readBytes len).snd)._offset = s._offset + len ∧
    (s._buffer.length : Int) < ((s.readBytes len).snd)._offset ∧
    s.read len = s.readBytes len ∧
    (∀ v : Int, (s.skip v)._offset = s._offset + v) := by
  refine ⟨?_, rfl, ?_, rfl, fun v => rfl⟩
  · rw [Stream.readBytes_eq s len h0 hlen]
    dsimp only
    apply List.take_of_length_le
    rw [List.length_drop]
    omega
  · exact hover

theorem c10_witness :
    ((Stream.mk none [1, 2, 3] 1).readBytes 5).fst = [2, 3] ∧
    (((Stream.mk none [1, 2, 3] 1).readBytes 5).snd)._offset = 6 := by
  have h := c10_stream_reads_unchecked (Stream.mk none [1, 2, 3] 1) 5
    (by decide) (by decide) (by decide)
  refine ⟨?_, ?_⟩
  · rw [h.1]
    decide
  · rw [h.2.1]
    decide

/-- C8: a raw frame whose bytes 17 through 19 equal the XID broadcast
signature 0x81 0x01 0x00 is rejected by the frame extractor before anything
else is inspected, so the frame produces zero decoded packets and no events,
even when its payload would alias the v1 magic. -/
theorem c8_xid_frame_rejected (env : Env) (store : List Connection)
    (registry : List Nat) (frame : List Byte)
    (h : jsSubarray frame 17 20 = XID_MAGIC) :
    handlePacket env store registry frame =
      Except.ok { store := store, registry := registry, events := [] } := by
  unfold handlePacket parseUDPPacket
  rw [if_pos h]

theorem c8_witness :
    handlePacket envId [] [] (List.replicate 17 0 ++ [0x81, 0x01, 0x00]) =
      Except.ok { store := [], registry := [], events := [] } :=
  c8_xid_frame_rejected envId [] [] _ (by decide)

/-- C5: direction inference — a packet with a private source address is
client to server and keyed by the destination ip:port (the client address is
the source pair); one with a non-private source is server to client and keyed
by the source ip:port; consequently a client-to-server frame and the
corresponding swapped server-to-client frame of the same flow resolve to the
same discriminator (and hence, by lookup on that registry key, the same
connection). -/
theorem c5_direction_inference (isPrivateIP : String → Bool) (u v : UDPPacket)
    (hsrc : v.source = u.destination) (hsp : v.sourcePort = u.destinationPort)
    (hdst : v.destination = u.source) (hdp : v.destinationPort = u.sourcePort)
    (hu : isPrivateIP u.source = true) (hv : isPrivateIP v.source = false) :
    (directionInfo isPrivateIP u).discriminator
      = u.destination ++ ":" ++ toString u.destinationPort ∧
    (directionInfo isPrivateIP u).clientAddress
      = u.source ++ ":" ++ toString u.sourcePort ∧
    (directionInfo isPrivateIP v).discriminator
      = v.source ++ ":" ++ toString v.sourcePort ∧
    (directionInfo isPrivateIP v).clientAddress
      = v.destination ++ ":" ++ toString v.destinationPort ∧
    (directionInfo isPrivateIP v).discriminator
      = (directionInfo isPrivateIP u).discriminator := by
  unfold directionInfo
  rw [hu, hv]
  simp [hsrc, hsp]

theorem c5_witness :
    (directionInfo envId.isPrivateIP
        { source := "1.2.3.4", destination := "192.168.0.13",
          sourcePort := 60000, destinationPort := 50000,
          payload := [] }).discriminator
      = (directionInfo envId.isPrivateIP
        { source := "192.168.0.13", destination := "1.2.3.4",
          sourcePort := 50000, destinationPort := 60000,
          payload := [] }).discriminator :=
  (c5_direction_inference envId.isPrivateIP _ _ rfl rfl rfl rfl
    (by decide) (by decide)).2.2.2.2

/-- C9: the ServiceItem dispatcher — a method id with no entry in the Handlers
table makes handlePacket log the unknown-method diagnostic and return with the
packet untouched (no rmcData attached) and without failing, so the run
continues; a registered method id makes it invoke the handler on the message
body stream and attach the result as rmcData.  The Handlers table is populated
exactly for method ids 0x01 through 0x16. -/
theorem c9_unknown_method_diagnostic (packet : SIPacket) :
    (ServiceItem.Handlers packet.rmcMessage.methodId = none →
      ServiceItem.handlePacket packet =
        (packet, [ServiceItem.unknownMethodMessage packet.rmcMessage.methodId])) ∧
    (∀ handler, ServiceItem.Handlers packet.rmcMessage.methodId = some handler →
      ServiceItem.handlePacket packet =
        ({ packet with rmcData := some { body := handler packet.rmcMessage (Stream.mk
            packet.connection packet.rmcMessage.body 0) } }, [])) ∧
    ((ServiceItem.Handlers packet.rmcMessage.methodId).isSome ↔
      1 ≤ packet.rmcMessage.methodId ∧ packet.rmcMessage.methodId ≤ 0x16) := by
  refine ⟨?_, ?_, ?_⟩
  · intro hnone
    unfold ServiceItem.handlePacket
    dsimp only
    rw [hnone]
  · intro handler hsome
    unfold ServiceItem.handlePacket
    dsimp only
    rw [hsome]
  · have hgen : ∀ mid : Nat,
        (ServiceItem.Handlers mid).isSome ↔ (1 ≤ mid ∧ mid ≤ 0x16) := by
      intro mid
      by_cases hlt : mid < 23
      · interval_cases mid <;> decide
      · have hnone : ServiceItem.Handlers mid = none := by
          unfold ServiceItem.Handlers
          split
          all_goals first | rfl | omega
        rw [hnone]
        simp only [Option.isSome_none, Bool.false_eq_true, false_iff]
        omega
    exact hgen packet.rmcMessage.methodId

theorem c9_witness :
    ServiceItem.handlePacket
        { rmcMessage := { methodId := 0x20, isRequest := true, body := [] } } =
      ({ rmcMessage := { methodId := 0x20, isRequest := true, body := [] } },
        [ServiceItem.unknownMethodMessage 0x20]) :=
  (c9_unknown_method_diagnostic
    { rmcMessage := { methodId := 0x20, isRequest := true, body := [] } }).1 rfl

/-- C6: connection lookup returns the most recently created matching record —
appending a record to the registry makes it the result of every later lookup
of its discriminator, shadowing any older record and leaving lookups of other
discriminators unchanged; and a processed datagram only ever appends to the
registry (the historical entries are all retained). -/
theorem c6_registry_lookup :
    (∀ (store : List Connection) (registry : List Nat) (d : String) (i : Nat),
      findLastConnection store (registry ++ [i]) d =
        if (store.getD i default).discriminator = d then some i
        else findLastConnection store registry d) ∧
    (∀ (env : Env) (store : List Connection) (registry : List Nat)
        (u : UDPPacket) (res : LoopState),
      processDatagram env store registry u = Except.ok res →
      ∃ t, res.registry = registry ++ t) := by
  constructor
  · intro store registry d i
    unfold findLastConnection
    rw [List.reverse_append, List.reverse_singleton, List.singleton_append]
    by_cases hd : (store.getD i default).discriminator = d
    · rw [if_pos hd, List.find?_cons_of_pos _ (by simp only [beq_iff_eq]; exact hd)]
    · rw [if_neg hd, List.find?_cons_of_neg _ (by simp only [beq_iff_eq]; exact hd)]
  · intro env store registry u res h
    unfold processDatagram at h
    dsimp only at h
    split at h
    · exact processLoop_registry_extends env u.payload _ false _ _ res h
    · exact processLoop_registry_extends env u.payload _ true _ _ res h

def c6StoreA : Connection := { discriminator := "a" }

def c6StoreD : Connection := { discriminator := "d" }

def c6EmptyDatagram : UDPPacket :=
  { source := "192.168.0.13"
    destination := "1.2.3.4"
    sourcePort := 50000
    destinationPort := 60000
    payload := [] }

def c6FreshConn : Connection :=
  { discriminator := "1.2.3.4:60000"
    clientAddress := "192.168.0.13:50000"
    serverAddress := "1.2.3.4:60000" }

theorem c6_witness :
    findLastConnection [c6StoreA, c6StoreD] ([0] ++ [1]) "d" = some 1 ∧
    (∃ t : List Nat, ([] : List Nat) = [] ++ t) := by
  constructor
  · rw [c6_registry_lookup.1 [c6StoreA, c6StoreD] [0] "d" 1, if_pos (by decide)]
  · have hrun : processDatagram envId [] [] c6EmptyDatagram =
        Except.ok { store := [c6FreshConn], registry := [], events := [] } := by
      rw [show processDatagram envId [] [] c6EmptyDatagram =
          processLoop envId [] 0 true
            { store := [c6FreshConn], registry := [], events := [] }
            { _buffer := [] } from rfl]
      exact processLoop_done envId [] 0 true _ _ (by decide)
    obtain ⟨t, ht⟩ := c6_registry_lookup.2 envId [] [] _ _ hrun
    exact ⟨t, by simpa using ht⟩

/-- C4 (amended): for every version-1 packet the framer validates, the cursor
is rewound to the start of the packet, so the carved span starts at the 2-byte
magic (it is the prefix of the buffer suffix beginning at the iteration
cursor); and provided the datagram still holds the declared number of bytes
from the packet start, the span length is exactly
2 + 12 + 16 + packetSpecificDataLength + payloadSize.  When the datagram is
shorter, `readBytes` clamps, so the carved span is truncated to the end of the
datagram (see the counterexample). -/
theorem c4_v1_span (s : Stream) (b2 psdl z0 z1 m0 m1 : Byte) (rest : List Byte)
    (h0 : 0 ≤ s._offset)
    (hb : s._buffer.drop s._offset.toNat
      = 0xEA :: 0xD0 :: b2 :: psdl :: z0 :: z1 :: m0 :: m1 :: rest)
    (hm : [m0, m1] = MAGIC_SERVERBOUND ∨ [m0, m1] = MAGIC_CLIENTBOUND)
    (hfit : s._offset.toNat + (2 + 12 + 16 + psdl + (z0 + z1 * 256))
      ≤ s._buffer.length) :
    frameStep s = FrameResult.v1Packet
      ((s._buffer.drop s._offset.toNat).take (2 + 12 + 16 + psdl + (z0 + z1 * 256)))
      { s with _offset := s._offset
          + ((30 + psdl + (z0 + z1 * 256) : Nat) : Int) } ∧
    ((s._buffer.drop s._offset.toNat).take
        (2 + 12 + 16 + psdl + (z0 + z1 * 256))).length
      = 2 + 12 + 16 + psdl + (z0 + z1 * 256) := by
  have hshape := frameStep_shape s b2 psdl z0 z1 m0 m1 rest h0 hb
  rw [if_pos hm] at hshape
  constructor
  · exact hshape
  · rw [List.length_take, List.length_drop]
    exact Nat.min_eq_left (by omega)

/-- A 32-byte datagram holding exactly one v1 packet: magic, skipped byte,
packetSpecificDataLength 0, payloadSize 2 little-endian, serverbound marker,
then the rest of the 30-byte fixed part and the 2 payload bytes. -/
def c4Buf : List Byte :=
  [0xEA, 0xD0, 7, 0, 2, 0, 0xAF, 0xA1] ++ List.replicate 24 9

theorem c4_witness :
    frameStep { _buffer := c4Buf } =
      FrameResult.v1Packet (c4Buf.take 32) { _buffer := c4Buf, _offset := 32 } ∧
    (c4Buf.take 32).length = 32 :=
  c4_v1_span { _buffer := c4Buf } 7 0 2 0 0xAF 0xA1 (List.replicate 24 9)
    (by decide) (by decide) (Or.inl rfl) (by decide)

/-- C4 counterexample: a validated v1 packet whose declared span
(2 + 12 + 16 + 0 + 5 = 35 bytes) exceeds the 8 bytes the datagram holds: the
framer still carves it, but `readBytes` clamps, so the carved span is the
whole 8-byte datagram, not 35 bytes — the length equation of the claim fails (the
cursor still advances by the full 35). -/
theorem c4_counterexample :
    frameStep { _buffer := [0xEA, 0xD0, 0, 0, 5, 0, 0xAF, 0xA1] } =
      FrameResult.v1Packet [0xEA, 0xD0, 0, 0, 5, 0, 0xAF, 0xA1]
        { _buffer := [0xEA, 0xD0, 0, 0, 5, 0, 0xAF, 0xA1], _offset := 35 } ∧
    ([0xEA, 0xD0, 0, 0, 5, 0, 0xAF, 0xA1] : List Byte).length
      ≠ 2 + 12 + 16 + 0 + 5 := by
  exact ⟨by decide, by decide⟩

/-- C7: at a position whose 2 bytes alias the v1 magic but where the 2 bytes
after the size fields are neither virtual-port marker, the framing loop
produces no packet from that position and silently discards the entire
remainder of the datagram: it returns the accumulated state unchanged (no new
events, no registry change) and no error is surfaced. -/
theorem c7_false_positive_magic_discards (env : Env) (p : List Byte) (ci : Nat)
    (nc : Bool) (st : LoopState) (s : Stream) (b2 psdl z0 z1 m0 m1 : Byte)
    (rest : List Byte) (h0 : 0 ≤ s._offset)
    (hb : s._buffer.drop s._offset.toNat
      = 0xEA :: 0xD0 :: b2 :: psdl :: z0 :: z1 :: m0 :: m1 :: rest)
    (hm : ¬([m0, m1] = MAGIC_SERVERBOUND ∨ [m0, m1] = MAGIC_CLIENTBOUND)) :
    processLoop env p ci nc st s = Except.ok st := by
  have hleft : s.hasDataLeft = true := by
    have hne : s._buffer.drop s._offset.toNat ≠ [] := by
      rw [hb]
      simp
    have hlt : s._offset.toNat < s._buffer.length := by
      by_contra hge
      exact hne (List.drop_eq_nil_of_le (by omega))
    unfold Stream.hasDataLeft
    simp only [decide_eq_true_eq]
    omega
  have hstep := frameStep_shape s b2 psdl z0 z1 m0 m1 rest h0 hb
  rw [if_neg hm] at hstep
  exact processLoop_discard env p ci nc st s hleft hstep

theorem c7_witness :
    processLoop envId [0xEA, 0xD0, 0, 0, 0, 0, 1, 2] 0 false
      { store := [], registry := [], events := [] }
      { _buffer := [0xEA, 0xD0, 0, 0, 0, 0, 1, 2] } =
      Except.ok { store := [], registry := [], events := [] } :=
  c7_false_positive_magic_discards envId [0xEA, 0xD0, 0, 0, 0, 0, 1, 2] 0 false
    { store := [], registry := [], events := [] }
    { _buffer := [0xEA, 0xD0, 0, 0, 0, 0, 1, 2] } 0 0 0 0 1 2 []
    (by decide) (by decide) (by decide)

/-- The first datagram of a new flow carrying two validated v0 packets. -/
def c1Datagram : UDPPacket :=
  { source := "192.168.0.13"
    destination := "1.2.3.4"
    sourcePort := 50000
    destinationPort := 60000
    payload := [0xAF, 0xA1, 0xAF, 0xA1] }

/-- The connection the parser allocates for `c1Datagram`. -/
def c1Conn : Connection :=
  { discriminator := "1.2.3.4:60000"
    clientAddress := "192.168.0.13:50000"
    serverAddress := "1.2.3.4:60000" }

/-- The v0 packet carved from `c1Datagram` (both iterations hand the whole
payload to the decoder). -/
def c1Pkt : Packet :=
  { version := 0, connectionId := 0, payload := [0xAF, 0xA1, 0xAF, 0xA1] }

/-- The events the run on `c1Datagram` emits: registration and notification
fire twice for the single new flow. -/
def c1Events : List Event :=
  [Event.connectionEvent 0, Event.packetEvent c1Pkt,
    Event.connectionEvent 0, Event.packetEvent c1Pkt]

/-- C1 evidence: the `newConnection` flag is never cleared inside the framing
loop, so the first datagram of a new flow registers the same connection and
fires the new-connection notification once per validated packet — here twice
(registry [0, 0], two connectionEvent entries) although the claim requires
exactly once per newly observed discriminator.  The second conjunct shows the
other half of the claim does hold on this embedding: a datagram none of whose bytes
validate adds no registry entry and fires nothing. -/
theorem c1_double_registration :
    (processDatagram envId [] [] c1Datagram =
      Except.ok { store := [c1Conn], registry := [0, 0], events := c1Events }) ∧
    (processDatagram envId [] [] { c1Datagram with payload := [1, 2, 3] } =
      Except.ok { store := [c1Conn], registry := [], events := [] }) := by
  constructor
  · rw [show processDatagram envId [] [] c1Datagram =
        processLoop envId [0xAF, 0xA1, 0xAF, 0xA1] 0 true
          { store := [c1Conn], registry := [], events := [] }
          { _buffer := [0xAF, 0xA1, 0xAF, 0xA1] } from rfl]
    rw [processLoop_v0 envId [0xAF, 0xA1, 0xAF, 0xA1] 0 true
      { store := [c1Conn], registry := [], events := [] }
      { _buffer := [0xAF, 0xA1, 0xAF, 0xA1] }
      { _buffer := [0xAF, 0xA1, 0xAF, 0xA1], _offset := 2 }
      (by decide) (by decide)]
    rw [processLoop_v0 envId [0xAF, 0xA1, 0xAF, 0xA1] 0 true _
      { _buffer := [0xAF, 0xA1, 0xAF, 0xA1], _offset := 2 }
      { _buffer := [0xAF, 0xA1, 0xAF, 0xA1], _offset := 4 }
      (by decide) (by decide)]
    rw [processLoop_done envId [0xAF, 0xA1, 0xAF, 0xA1] 0 true _
      { _buffer := [0xAF, 0xA1, 0xAF, 0xA1], _offset := 4 } (by decide)]
    rfl
  · rw [show processDatagram envId [] [] { c1Datagram with payload := [1, 2, 3] } =
        processLoop envId [1, 2, 3] 0 true
          { store := [c1Conn], registry := [], events := [] }
          { _buffer := [1, 2, 3] } from rfl]
    rw [processLoop_discard envId [1, 2, 3] 0 true
      { store := [c1Conn], registry := [], events := [] }
      { _buffer := [1, 2, 3] } (by decide) (by decide)]

/-- The fresh secure-server connection pushed on the different-address branch
of the promotion: identity at the station URL endpoint, isSecureServer set,
both cipher states seeded from the copied session key, and accessKey,
accessKeySum, signatureKey, sessionKey, prudpVersion and title copied from the
source connection; the pending flag and learned URL start clear. -/
def secureCopy (connection : Connection) (stationURL : StationURL) : Connection :=
  { discriminator := stationURL.address ++ ":" ++ stationURL.port
    clientAddress := connection.clientAddress
    serverAddress := stationURL.address ++ ":" ++ stationURL.port
    accessKey := connection.accessKey
    accessKeySum := connection.accessKeySum
    signatureKey := connection.signatureKey
    sessionKey := connection.sessionKey
    prudpVersion := connection.prudpVersion
    title := connection.title
    isSecureServer := true
    checkForSecureServer := false
    secureServerStationURL := none
    rc4ClientState := connection.sessionKey
    rc4ServerState := connection.sessionKey }

/-- C2: secure-server promotion, evaluated by `afterValidation` right after
the connection has handled the packet, whenever the check fires
(`checkForSecureServer` set and a station URL present).  Different ip:port:
exactly one new connection is pushed (one fresh store slot, one new registry
reference) with `isSecureServer` true, both cipher states seeded from the
copied session key, and accessKey, accessKeySum, signatureKey, sessionKey,
prudpVersion and title copied from the source; same ip:port: nothing is
pushed and the existing connection is promoted in place with its cipher
states re-seeded from its current session key.  In both branches
`checkForSecureServer` is cleared. -/
theorem c2_secure_promotion (ci : Nat) (store : List Connection)
    (registry : List Nat) (connection : Connection) (stationURL : StationURL)
    (hget : store.getD ci default = connection)
    (hurl : connection.secureServerStationURL = some stationURL)
    (hflag : connection.checkForSecureServer = true) :
    (connection.discriminator ≠ stationURL.address ++ ":" ++ stationURL.port →
      securePromotion ci store registry =
        ((store ++ [secureCopy connection stationURL]).set ci
            { connection with checkForSecureServer := false },
          registry ++ [store.length])) ∧
    (connection.discriminator = stationURL.address ++ ":" ++ stationURL.port →
      securePromotion ci store registry =
        (store.set ci
          { connection with
            isSecureServer := true
            rc4ClientState := connection.sessionKey
            rc4ServerState := connection.sessionKey
            checkForSecureServer := false }, registry)) := by
  unfold securePromotion
  dsimp only
  rw [hget, hurl]
  dsimp only
  rw [if_pos hflag]
  constructor
  · intro hne
    rw [if_pos hne]
    rfl
  · intro heq
    rw [if_neg (not_not_intro heq)]
    rfl

/-- A connection awaiting secure-server promotion towards a different
address. -/
def c2Conn : Connection :=
  { discriminator := "1.2.3.4:60000"
    clientAddress := "192.168.0.13:50000"
    serverAddress := "1.2.3.4:60000"
    accessKey := 5
    accessKeySum := 6
    signatureKey := 7
    sessionKey := 99
    prudpVersion := 1
    title := "game"
    checkForSecureServer := true
    secureServerStationURL := some { address := "5.6.7.8", port := "60001" } }

/-- The promoted copy of `c2Conn` at the secure address. -/
def c2Secure : Connection :=
  { discriminator := "5.6.7.8:60001"
    clientAddress := "192.168.0.13:50000"
    serverAddress := "5.6.7.8:60001"
    accessKey := 5
    accessKeySum := 6
    signatureKey := 7
    sessionKey := 99
    prudpVersion := 1
    title := "game"
    isSecureServer := true
    rc4ClientState := 99
    rc4ServerState := 99 }

/-- The source connection after promotion cleared its pending flag. -/
def c2ConnCleared : Connection := { c2Conn with checkForSecureServer := false }

theorem c2_witness :
    securePromotion 0 [c2Conn] [] = ([c2ConnCleared, c2Secure], [1]) := by
  have h := (c2_secure_promotion 0 [c2Conn] [] c2Conn
    { address := "5.6.7.8", port := "60001" } rfl rfl rfl).1 (by decide)
  rw [h]
  decide

/-- The datagram of the C3 counterexample: a 30-byte v1 packet followed by a
bare serverbound marker, so the second framing iteration identifies a v0
packet at offset 30 where only 2 bytes remain. -/
def c3Payload : List Byte :=
  [0xEA, 0xD0, 0, 0, 0, 0, 0xAF, 0xA1] ++ List.replicate 22 0 ++ [0xAF, 0xA1]

/-- The carved span of the leading v1 packet of `c3Payload`. -/
def c3Span : List Byte :=
  [0xEA, 0xD0, 0, 0, 0, 0, 0xAF, 0xA1] ++ List.replicate 22 0

/-- An established connection for the C3 run. -/
def c3Conn : Connection := { discriminator := "1.2.3.4:60000" }

/-- The v1 packet of the C3 run. -/
def c3V1Pkt : Packet := { version := 1, connectionId := 0, payload := c3Span }

/-- The v0 packet of the C3 run: handed the whole datagram payload. -/
def c3V0Pkt : Packet := { version := 0, connectionId := 0, payload := c3Payload }

/-- The events of the C3 run. -/
def c3Events : List Event :=
  [Event.packetEvent c3V1Pkt, Event.packetEvent c3V0Pkt]

/-- The C3 datagram as a UDP packet of the established flow. -/
def c3Datagram : UDPPacket :=
  { source := "192.168.0.13"
    destination := "1.2.3.4"
    sourcePort := 50000
    destinationPort := 60000
    payload := c3Payload }

theorem c3_run :
    processLoop envId c3Payload 0 false
      { store := [c3Conn], registry := [0], events := [] }
      { _buffer := c3Payload } =
      Except.ok { store := [c3Conn], registry := [0], events := c3Events } := by
  rw [processLoop_v1 envId c3Payload 0 false
    { store := [c3Conn], registry := [0], events := [] }
    { _buffer := c3Payload } c3Span
    { _buffer := c3Payload, _offset := 30 } (by decide) (by decide)]
  rw [processLoop_v0 envId c3Payload 0 false _
    { _buffer := c3Payload, _offset := 30 }
    { _buffer := c3Payload, _offset := 32 } (by decide) (by decide)]
  rw [processLoop_done envId c3Payload 0 false _
    { _buffer := c3Payload, _offset := 32 } (by decide)]
  rfl

/-- C3 counterexample: in a datagram holding a v1 packet followed by a v0
packet, the v0 packet identified at offset 30 (the first two unconsumed bytes
are the serverbound marker) is handed `udpPacket.payload` — the entire
datagram from offset 0 — which differs from the remaining payload at that
position (`c3Payload.drop 30 = [0xAF, 0xA1]`), refuting the claim that the
buffer handed to the v0 decoder is the remaining payload. -/
theorem c3_counterexample :
    processDatagram envId [c3Conn] [0] c3Datagram =
      Except.ok { store := [c3Conn], registry := [0], events := c3Events } ∧
    c3Payload ≠ c3Payload.drop 30 := by
  constructor
  · rw [show processDatagram envId [c3Conn] [0] c3Datagram =
        processLoop envId c3Payload 0 false
          { store := [c3Conn], registry := [0], events := [] }
          { _buffer := c3Payload } from rfl]
    exact c3_run
  · decide

/-- C3 (amended): every version-0 packet the framing loop emits carries the
entire UDP payload of the datagram — the whole buffer from offset 0,
regardless of the cursor position at which the marker was identified (equal
to the remaining payload exactly when the marker sits at the start), never a
span bounded by a length field. -/
theorem c3_v0_entire_payload (env : Env) (p : List Byte) (ci : Nat) (nc : Bool)
    (st : LoopState) (s : Stream) (res : LoopState)
    (h : processLoop env p ci nc st s = Except.ok res)
    (pk : Packet) (hmem : Event.packetEvent pk ∈ res.events)
    (hv : pk.version = 0) (hnew : Event.packetEvent pk ∉ st.events) :
    pk.payload = p := by
  rcases processLoop_v0_whole_payload env p ci nc st s res h pk hmem hv with hin | hpay
  · exact absurd hin hnew
  · exact hpay

theorem c3_witness :
    c3V0Pkt.payload = c3Payload :=
  c3_v0_entire_payload envId c3Payload 0 false
    { store := [c3Conn], registry := [0], events := [] }
    { _buffer := c3Payload } _ c3_run _ (by decide) rfl (by decide)

end NexViewer
